import Mathlib

/-!
Shallow embedding of the three client-side scripts of this repository:

* `src/slider.js` — the `CardSlider` class: an infinite card carousel with
  cloned cards at both ends, index-clamped sliding, a deferred loop-reset
  jump, drag-end threshold logic, and dot indicators.
* `src/shop-category.js` — the category dropdown: four DOM event handlers
  toggling the button's `active` class, the menu's `show` class and the
  arrow's rotation transform.
* `src/unnamed/part_000` — the smooth-scroll script: anchor-click handling
  with cross-page anchor resolution through the sessionStorage key
  `scrollTarget`.

Machine floats of JavaScript are modelled as exact rationals (`ℚ`); DOM
queries are modelled as a function `String → Option ℚ` giving the document
position of the first element matching a selector (`none` both when no
element matches and when the selector is invalid, since the source converts
a `querySelector` exception into `null`); sessionStorage is modelled by the
single key the program uses, an `Option String`.
-/

/-! ## CardSlider (`src/slider.js`) -/

/-- The mutable slide state of a `CardSlider` that the slide operations
touch: `currentIndex`, `currentTranslate`, `prevTranslate`. -/
structure SliderState where
  currentIndex : ℤ
  currentTranslate : ℚ
  prevTranslate : ℚ
  deriving DecidableEq, Repr

/-- `setupInfiniteLoop`: `cloneCount = Math.min(this.totalRealCards, this.options.cardsToShow)`. -/
def cloneCount (totalRealCards cardsToShow : ℕ) : ℕ :=
  min totalRealCards cardsToShow

/-- `setupInfiniteLoop`: after inserting `cloneCount` clones at each end,
`this.totalCards = this.wrapper.querySelectorAll('.product-card').length`. -/
def sliderTotalCards (totalRealCards cardsToShow : ℕ) : ℕ :=
  totalRealCards + 2 * cloneCount totalRealCards cardsToShow

/-- `setupInfiniteLoop`: `this.maxIndex = this.totalCards - this.options.cardsToShow`
(only assigned in loop mode, i.e. when `totalRealCards > cardsToShow`). -/
def sliderMaxIndex (totalRealCards cardsToShow : ℕ) : ℤ :=
  (sliderTotalCards totalRealCards cardsToShow : ℤ) - cardsToShow

/-- The wrapper's card list after `setupInfiniteLoop`, each card named by the
real card (0-based) it is a copy of.  The source starts from the real cards,
runs `lastCards.forEach(card => wrapper.insertBefore(card, wrapper.firstChild))`
— each clone of the last `cloneCount` cards is inserted at the very front of
the current wrapper — and then appends the clones of the first `cloneCount`
cards with `appendChild`. -/
def wrapperCards (totalRealCards cardsToShow : ℕ) : List ℕ :=
  let cards := List.range totalRealCards
  let c := cloneCount totalRealCards cardsToShow
  let firstCards := cards.take c
  let lastCards := cards.drop (totalRealCards - c)
  (lastCards.foldl (fun w card => card :: w) cards) ++ firstCards

/-- The real card displayed at wrapper position `pos` (the card at the left
edge of the viewport when `currentIndex = pos`). -/
def realCardAt (totalRealCards cardsToShow pos : ℕ) : Option ℕ :=
  (wrapperCards totalRealCards cardsToShow).get? pos

/-- `slideToIndex`: `index = Math.max(0, Math.min(index, this.maxIndex))`. -/
def clampIndex (index maxIdx : ℤ) : ℤ :=
  max 0 (min index maxIdx)

/-- The synchronous part of `slideToIndex`: clamp the index, then
`this.currentIndex = index; this.currentTranslate = -(index * this.cardFullWidth);
this.prevTranslate = this.currentTranslate`. -/
def slideToIndexSync (_s : SliderState) (index maxIdx : ℤ) (cardFullWidth : ℚ) :
    SliderState :=
  let i := clampIndex index maxIdx
  { currentIndex := i
    currentTranslate := -(i * cardFullWidth)
    prevTranslate := -(i * cardFullWidth) }

/-- The deferred loop-reset of `slideToIndex` (the body of the 300 ms
`setTimeout` that runs when `options.loop` and the slide was animated):
if the index landed in the leading clones
(`currentIndex <= cardsToShow - 1`) jump to
`maxIndex - (cardsToShow - 1 - currentIndex)`; otherwise if it landed in the
trailing clones (`currentIndex >= maxIndex - (cardsToShow - 1)`) jump to
`currentIndex - (maxIndex - (cardsToShow - 1)) + (cardsToShow - 1)`;
each jump re-assigns both translates from the new index. -/
def loopReset (s : SliderState) (cardsToShow : ℕ) (maxIdx : ℤ)
    (cardFullWidth : ℚ) : SliderState :=
  if s.currentIndex ≤ (cardsToShow : ℤ) - 1 then
    let i := maxIdx - ((cardsToShow : ℤ) - 1 - s.currentIndex)
    { currentIndex := i
      currentTranslate := -(i * cardFullWidth)
      prevTranslate := -(i * cardFullWidth) }
  else if s.currentIndex ≥ maxIdx - ((cardsToShow : ℤ) - 1) then
    let i := s.currentIndex - (maxIdx - ((cardsToShow : ℤ) - 1)) +
      ((cardsToShow : ℤ) - 1)
    { currentIndex := i
      currentTranslate := -(i * cardFullWidth)
      prevTranslate := -(i * cardFullWidth) }
  else s

/-- `dragEnd`: with `movedBy = currentTranslate - prevTranslate` and
`threshold = cardFullWidth / 3`, the index passed to `slideToIndex` is
`currentIndex + (movedBy < 0 ? 1 : -1)` when `|movedBy| > threshold` and the
unchanged `currentIndex` otherwise. -/
def dragEndTarget (currentIndex : ℤ) (currentTranslate prevTranslate : ℚ)
    (cardFullWidth : ℚ) : ℤ :=
  let movedBy := currentTranslate - prevTranslate
  let threshold := cardFullWidth / 3
  if |movedBy| > threshold then
    currentIndex + (if movedBy < 0 then 1 else -1)
  else
    currentIndex

/-- `updateDots`: `realIndex = currentIndex - cardsToShow`, then one
wrap-around adjustment (`+ totalRealCards` if negative,
`- totalRealCards` if `≥ totalRealCards`). -/
def updateDotsRealIndex (currentIndex : ℤ) (cardsToShow totalRealCards : ℕ) : ℤ :=
  let realIndex := currentIndex - cardsToShow
  if realIndex < 0 then (totalRealCards : ℤ) + realIndex
  else if realIndex ≥ (totalRealCards : ℤ) then realIndex - totalRealCards
  else realIndex

/-- `updateDots`: `dot.classList.toggle('active', i === realIndex)` —
dot `i` ends with the `active` class exactly when it equals the computed
real index. -/
def updateDotsActive (currentIndex : ℤ) (cardsToShow totalRealCards i : ℕ) :
    Bool :=
  decide ((i : ℤ) = updateDotsRealIndex currentIndex cardsToShow totalRealCards)

/-- The `currentTranslate = -(currentIndex * cardFullWidth)` and
`prevTranslate = currentTranslate` equations that `slideToIndex`
(re-)establishes. -/
def translateInv (s : SliderState) (cardFullWidth : ℚ) : Prop :=
  s.currentTranslate = -(s.currentIndex * cardFullWidth) ∧
    s.prevTranslate = s.currentTranslate

/-- The `CardSlider` constructor: `this.container = document.getElementById(containerId);
if (!this.container) return;` — with no container, the constructor returns
before initializing any slide state. -/
def cardSliderConstruct (container : Option Unit) : Option SliderState :=
  match container with
  | none => none
  | some _ => some { currentIndex := 0, currentTranslate := 0, prevTranslate := 0 }

/-! ## Category dropdown (`src/shop-category.js`) -/

/-- The DOM state the dropdown handlers read and write: whether the button
has the `active` class, whether the menu has the `show` class, and the
arrow's inline `transform` style. -/
structure DropdownState where
  btnActive : Bool
  menuShow : Bool
  arrowTransform : String
  deriving DecidableEq, Repr

/-- The transform the handlers assign from the menu's `show` class:
`dropdownMenu.classList.contains('show') ? 'rotate(180deg)' : 'rotate(0deg)'`. -/
def rotateFor (shown : Bool) : String :=
  if shown then "rotate(180deg)" else "rotate(0deg)"

/-- The button click handler: toggle `active` on the button, toggle `show`
on the menu, and (when a `.dropdown-arrow` element exists) set the arrow
transform from the menu's resulting `show` class. -/
def dropdownBtnClick (hasArrow : Bool) (s : DropdownState) : DropdownState :=
  let shown := !s.menuShow
  { btnActive := !s.btnActive
    menuShow := shown
    arrowTransform := if hasArrow then rotateFor shown else s.arrowTransform }

/-- The document click handler: when the click target is inside neither the
button nor the menu, remove `active` and `show` and reset the arrow to
`rotate(0deg)`; otherwise do nothing. -/
def dropdownOutsideClick (hasArrow insideBtnOrMenu : Bool) (s : DropdownState) :
    DropdownState :=
  if insideBtnOrMenu then s
  else
    { btnActive := false
      menuShow := false
      arrowTransform := if hasArrow then "rotate(0deg)" else s.arrowTransform }

/-- The `.dropdown-item` click handler: unconditionally remove `active` and
`show` and reset the arrow (the link then navigates naturally). -/
def dropdownItemClick (hasArrow : Bool) (s : DropdownState) : DropdownState :=
  { btnActive := false
    menuShow := false
    arrowTransform := if hasArrow then "rotate(0deg)" else s.arrowTransform }

/-- The keydown handler: on `Escape` while the menu has `show`, remove
`active` and `show` and reset the arrow; otherwise do nothing. -/
def dropdownEscapeKeydown (hasArrow isEscape : Bool) (s : DropdownState) :
    DropdownState :=
  if isEscape && s.menuShow then
    { btnActive := false
      menuShow := false
      arrowTransform := if hasArrow then "rotate(0deg)" else s.arrowTransform }
  else s

/-- Agreement of the three pieces of dropdown state: the button has `active`
iff the menu has `show`, and when an arrow element exists its transform is
the rotation matching the menu's `show` class. -/
def dropdownConsistent (hasArrow : Bool) (s : DropdownState) : Prop :=
  s.btnActive = s.menuShow ∧
    (hasArrow = true → s.arrowTransform = rotateFor s.menuShow)

/-- The `DOMContentLoaded` setup of the dropdown:
`if (!dropdownBtn || !dropdownMenu) return;` — when either element is
missing no listeners are attached; otherwise the button click listener, the
document click listener, one click listener per `.dropdown-item`, and the
document keydown listener are attached, in that order. -/
def dropdownSetupListeners (btn menu : Option Unit) (itemCount : ℕ) :
    List String :=
  match btn, menu with
  | some _, some _ =>
      ["btn-click", "document-click"] ++
        List.replicate itemCount "item-click" ++ ["document-keydown"]
  | _, _ => []

/-! ## Smooth scroll (`src/unnamed/part_000`) -/

/-- `config.offset = 80` — the fixed-header offset in pixels. -/
def configOffset : ℚ := 80

/-- The characters after the first occurrence of `sep` (a non-empty
separator, scanned left to right), or `none` when `sep` does not occur. -/
def afterFirst (sep : List Char) : List Char → Option (List Char)
  | [] => none
  | c :: rest =>
      if sep.isPrefixOf (c :: rest) then some ((c :: rest).drop sep.length)
      else afterFirst sep rest

/-- The characters before the next occurrence of `sep` (all of them when
`sep` does not occur). -/
def upToNext (sep : List Char) : List Char → List Char
  | [] => []
  | c :: rest => if sep.isPrefixOf (c :: rest) then [] else c :: upToNext sep rest

/-- JavaScript `String.prototype.includes` for a non-empty pattern: some
occurrence exists. -/
def strContains (s pat : String) : Bool :=
  (afterFirst pat.data s.data).isSome

/-- JavaScript `str.split(pat)[1]` for a non-empty pattern: the segment
between the first occurrence of `pat` and the next one (`none` models the
`undefined` of a split with fewer than two parts). -/
def jsSplitSecond (s pat : String) : Option String :=
  (afterFirst pat.data s.data).map (fun l => String.mk (upToNext pat.data l))

/-- JavaScript `String.prototype.startsWith`. -/
def strStartsWith (s pre : String) : Bool :=
  pre.data.isPrefixOf s.data

/-- JavaScript `String.prototype.endsWith`. -/
def strEndsWith (s suf : String) : Bool :=
  suf.data.isSuffixOf s.data

/-- `isHomePage`: the path ends with `index.html`, ends with `/`, or is
empty. -/
def isHomePage (path : String) : Bool :=
  strEndsWith path "index.html" || strEndsWith path "/" || path == ""

/-- `extractIdFromHref`: `'#' + href.split('index.html#')[1]` when the href
contains `index.html#` (the `./index.html#` branch of the source is
unreachable because such an href already contains `index.html#`), the href
itself when it starts with `#`, and `null` otherwise.  The `none` fallbacks
of the first two branches are unreachable: `strContains` guarantees
`jsSplitSecond` is `some`. -/
def extractIdFromHref (href : String) : Option String :=
  if strContains href "index.html#" = true then
    match jsSplitSecond href "index.html#" with
    | some p => some ("#" ++ p)
    | none => none
  else if strContains href "./index.html#" = true then
    match jsSplitSecond href "./index.html#" with
    | some p => some ("#" ++ p)
    | none => none
  else if strStartsWith href "#" then some href
  else none

/-- `getTargetElement`: `null` for an empty or `'#'` hash, otherwise the
`document.querySelector` result — `dom hash` gives the matched element's
document position (`rect.top + scrollTop`), with `none` both for no match
and for an invalid selector (the source catches the exception and returns
`null`). -/
def getTargetElement (hash : String) (dom : String → Option ℚ) : Option ℚ :=
  if hash = "" ∨ hash = "#" then none else dom hash

/-- The externally visible outcome of one `handleAnchorClick` run:
whether `event.preventDefault()` was called, the final scroll position
(`animateScroll` always ends with `window.scrollTo(0, targetPosition)`),
the hash passed to `history.pushState` after the scroll animation resolves,
and the sessionStorage key `scrollTarget` after the handler. -/
structure ClickEffect where
  prevented : Bool
  scrolledTo : Option ℚ
  pushedHash : Option String
  storage : Option String
  deriving DecidableEq, Repr

/-- `handleAnchorClick` on a link with the given `href`, on a page with the
given `location.pathname`, DOM and stored `scrollTarget`.  The branches and
their order follow the source: skip on an empty href; a local anchor
(`href` starts with `#`, is not exactly `#`) prevents default and, when a
target exists, scrolls to its position minus `config.offset` and then pushes
the hash; an `index.html#` link on the home page behaves like a local anchor
for the extracted id; an `index.html#` link off the home page does not
prevent default and stores the extracted id (when truthy) under
`scrollTarget`. -/
def handleAnchorClick (href path : String) (dom : String → Option ℚ)
    (storage : Option String) : ClickEffect :=
  if href = "" then
    { prevented := false, scrolledTo := none, pushedHash := none, storage := storage }
  else if strStartsWith href "#" = true ∧ href ≠ "#" then
    match getTargetElement href dom with
    | some pos =>
        { prevented := true, scrolledTo := some (pos - configOffset)
          pushedHash := some href, storage := storage }
    | none =>
        { prevented := true, scrolledTo := none, pushedHash := none, storage := storage }
  else if strContains href "index.html#" = true then
    if isHomePage path = true then
      match extractIdFromHref href with
      | some tid =>
          match getTargetElement tid dom with
          | some pos =>
              { prevented := true, scrolledTo := some (pos - configOffset)
                pushedHash := some tid, storage := storage }
          | none =>
              { prevented := true, scrolledTo := none, pushedHash := none
                storage := storage }
      | none =>
          { prevented := true, scrolledTo := none, pushedHash := none
            storage := storage }
    else
      match extractIdFromHref href with
      | some tid =>
          if tid = "" then
            { prevented := false, scrolledTo := none, pushedHash := none
              storage := storage }
          else
            { prevented := false, scrolledTo := none, pushedHash := none
              storage := some tid }
      | none =>
          { prevented := false, scrolledTo := none, pushedHash := none
            storage := storage }
  else
    { prevented := false, scrolledTo := none, pushedHash := none, storage := storage }

/-- The externally visible outcome of `checkStoredScrollTarget` on page
load: the final scroll position, the pushed hash, and the sessionStorage
key `scrollTarget` after the run. -/
structure LoadEffect where
  scrolledTo : Option ℚ
  pushedHash : Option String
  storage : Option String
  deriving DecidableEq, Repr

/-- `checkStoredScrollTarget`: read `scrollTarget`; when it is truthy
(present and non-empty), remove it unconditionally and then — after the
500 ms timeout — scroll to the target element (position minus
`config.offset`) and push the hash only if the element exists. -/
def checkStoredScrollTarget (storage : Option String)
    (dom : String → Option ℚ) : LoadEffect :=
  match storage with
  | none => { scrolledTo := none, pushedHash := none, storage := none }
  | some t =>
      if t = "" then { scrolledTo := none, pushedHash := none, storage := some t }
      else
        match getTargetElement t dom with
        | some pos =>
            { scrolledTo := some (pos - configOffset), pushedHash := some t
              storage := none }
        | none => { scrolledTo := none, pushedHash := none, storage := none }

/-! ## Claims -/

/-- C1: refuted as stated — in loop mode the deferred loop-reset does NOT
land on an index displaying the same real card.  With 3 real cards and
`cardsToShow = 1` (the deployed configuration) `maxIndex = 4` and the
wrapper shows real cards `[2, 0, 1, 2, 0]`.  An animated `slideToIndex 4`
(a `slideNext` from index 3) triggers the trailing-clone reset, which jumps
to index 0: index 4 displays real card 0 but index 0 displays real card 2.
Likewise `slidePrev` from the first real card (index 1, real card 0) slides
to index 0 (real card 2, the last real card) but the deferred reset then
jumps to index 4, which displays real card 0 again — contradicting both the
claim and the source's own comments "Jump to the corresponding real cards". -/
theorem C1_loop_reset_changes_displayed_card :
    sliderMaxIndex 3 1 = 4 ∧
    (loopReset (slideToIndexSync ⟨3, -300, -300⟩ 4 (sliderMaxIndex 3 1) 100) 1
        (sliderMaxIndex 3 1) 100).currentIndex = 0 ∧
    realCardAt 3 1 4 = some 0 ∧
    realCardAt 3 1 0 = some 2 ∧
    (loopReset (slideToIndexSync ⟨1, -100, -100⟩ 0 (sliderMaxIndex 3 1) 100) 1
        (sliderMaxIndex 3 1) 100).currentIndex = 4 ∧
    realCardAt 3 1 1 = some 0 := by
  refine ⟨by decide, by decide, by decide, by decide, by decide, by decide⟩

/-- C5: each button click toggles the button's `active` class and the menu's
`show` class together, and (when the arrow exists) sets the arrow transform
to `rotate(180deg)` exactly when the menu ends up shown; hence two
consecutive button clicks with no intervening handler restore the button,
menu and arrow to their prior state (the arrow's prior transform being the
rotation matching the menu, as every handler leaves it). -/
theorem C5_dropdown_button_click_toggles (hasArrow : Bool) (s : DropdownState)
    (h : hasArrow = true → s.arrowTransform = rotateFor s.menuShow) :
    (dropdownBtnClick hasArrow s).btnActive = !s.btnActive ∧
    (dropdownBtnClick hasArrow s).menuShow = !s.menuShow ∧
    (hasArrow = true →
      ((dropdownBtnClick hasArrow s).arrowTransform = "rotate(180deg)" ↔
        (dropdownBtnClick hasArrow s).menuShow = true)) ∧
    dropdownBtnClick hasArrow (dropdownBtnClick hasArrow s) = s := by
  obtain ⟨a, m, t⟩ := s
  cases hasArrow <;> cases a <;> cases m <;>
    simp_all [dropdownBtnClick, rotateFor]

/-- Witness for C5 at a concrete consistent state. -/
theorem C5_dropdown_button_click_toggles_witness :
    ((true : Bool) = true →
      (DropdownState.mk false false "rotate(0deg)").arrowTransform =
        rotateFor (DropdownState.mk false false "rotate(0deg)").menuShow) ∧
    ((dropdownBtnClick true (DropdownState.mk false false "rotate(0deg)")).btnActive
        = !(DropdownState.mk false false "rotate(0deg)").btnActive ∧
      (dropdownBtnClick true (DropdownState.mk false false "rotate(0deg)")).menuShow
        = !(DropdownState.mk false false "rotate(0deg)").menuShow ∧
      ((true : Bool) = true →
        ((dropdownBtnClick true (DropdownState.mk false false "rotate(0deg)")).arrowTransform
            = "rotate(180deg)" ↔
          (dropdownBtnClick true (DropdownState.mk false false "rotate(0deg)")).menuShow
            = true)) ∧
      dropdownBtnClick true
          (dropdownBtnClick true (DropdownState.mk false false "rotate(0deg)"))
        = DropdownState.mk false false "rotate(0deg)") :=
  ⟨by decide,
    C5_dropdown_button_click_toggles true
      (DropdownState.mk false false "rotate(0deg)") (by decide)⟩

/-- C9: assuming the button's `active` class, the menu's `show` class and
the arrow rotation agree beforehand, each of the four dropdown handlers
(button click, outside click, dropdown-item click, Escape keydown) leaves
them agreeing: the button has `active` iff the menu has `show`, and when an
arrow element exists its transform is `rotate(180deg)` exactly when the
menu is shown. -/
theorem C9_dropdown_handlers_preserve_agreement
    (hasArrow insideBtnOrMenu isEscape : Bool) (s : DropdownState)
    (h : dropdownConsistent hasArrow s) :
    dropdownConsistent hasArrow (dropdownBtnClick hasArrow s) ∧
    dropdownConsistent hasArrow (dropdownOutsideClick hasArrow insideBtnOrMenu s) ∧
    dropdownConsistent hasArrow (dropdownItemClick hasArrow s) ∧
    dropdownConsistent hasArrow (dropdownEscapeKeydown hasArrow isEscape s) := by
  obtain ⟨a, m, t⟩ := s
  obtain ⟨h1, h2⟩ := h
  cases hasArrow <;> cases insideBtnOrMenu <;> cases isEscape <;>
    cases a <;> cases m <;>
    simp_all [dropdownConsistent, dropdownBtnClick, dropdownOutsideClick,
      dropdownItemClick, dropdownEscapeKeydown, rotateFor]

/-- Witness for C9 at a concrete agreeing state. -/
theorem C9_dropdown_handlers_preserve_agreement_witness :
    dropdownConsistent true (DropdownState.mk true true "rotate(180deg)") ∧
    (dropdownConsistent true
        (dropdownBtnClick true (DropdownState.mk true true "rotate(180deg)")) ∧
      dropdownConsistent true
        (dropdownOutsideClick true false (DropdownState.mk true true "rotate(180deg)")) ∧
      dropdownConsistent true
        (dropdownItemClick true (DropdownState.mk true true "rotate(180deg)")) ∧
      dropdownConsistent true
        (dropdownEscapeKeydown true true (DropdownState.mk true true "rotate(180deg)"))) :=
  ⟨⟨rfl, fun _ => rfl⟩,
    C9_dropdown_handlers_preserve_agreement true false true
      (DropdownState.mk true true "rotate(180deg)") ⟨rfl, fun _ => rfl⟩⟩

/-- Loop mode (`totalRealCards > cardsToShow`) makes `cloneCount = cardsToShow`
and `maxIndex = totalRealCards + cardsToShow`. -/
theorem sliderMaxIndex_loop (N k : ℕ) (hk : k < N) :
    sliderMaxIndex N k = (N : ℤ) + k := by
  unfold sliderMaxIndex sliderTotalCards cloneCount
  rw [Nat.min_eq_right hk.le]
  push_cast
  ring

/-- C6: when a drag ends, the index passed to `slideToIndex` differs from
`currentIndex` by exactly one, and does so exactly when the absolute drag
displacement `currentTranslate - prevTranslate` exceeds one third of
`cardFullWidth`; a leftward drag (negative displacement) yields
`currentIndex + 1`, a rightward one (positive displacement) yields
`currentIndex - 1`, and otherwise the target is the unchanged
`currentIndex` (snap back). -/
theorem C6_drag_end_threshold (i : ℤ) (ct pt w : ℚ) (hw : 0 < w) :
    ((dragEndTarget i ct pt w = i + 1 ∨ dragEndTarget i ct pt w = i - 1) ↔
      w / 3 < |ct - pt|) ∧
    (dragEndTarget i ct pt w = i + 1 ↔ (w / 3 < |ct - pt| ∧ ct - pt < 0)) ∧
    (dragEndTarget i ct pt w = i - 1 ↔ (w / 3 < |ct - pt| ∧ 0 < ct - pt)) ∧
    (¬ w / 3 < |ct - pt| → dragEndTarget i ct pt w = i) := by
  unfold dragEndTarget
  have h3 : (0 : ℚ) < w / 3 := by linarith
  by_cases hth : w / 3 < |ct - pt|
  · rw [if_pos hth]
    by_cases hneg : ct - pt < 0
    · rw [if_pos hneg]
      refine ⟨⟨fun _ => hth, fun _ => Or.inl rfl⟩, ⟨fun _ => ⟨hth, hneg⟩, fun _ => rfl⟩,
        ⟨fun hcontra => absurd hcontra (by omega), fun hcontra => absurd hcontra.2 (by linarith)⟩,
        fun hcontra => absurd hth hcontra⟩
    · rw [if_neg hneg]
      have hpos : 0 < ct - pt := by
        rcases lt_trichotomy (ct - pt) 0 with h | h | h
        · exact absurd h hneg
        · rw [h, abs_zero] at hth; linarith
        · exact h
      refine ⟨⟨fun _ => hth, fun _ => Or.inr rfl⟩,
        ⟨fun hcontra => absurd hcontra (by omega), fun hcontra => absurd hcontra.2 hneg⟩,
        ⟨fun _ => ⟨hth, hpos⟩, fun _ => rfl⟩,
        fun hcontra => absurd hth hcontra⟩
  · rw [if_neg hth]
    refine ⟨⟨fun hcontra => ?_, fun hcontra => absurd hcontra hth⟩,
      ⟨fun hcontra => absurd hcontra (by omega), fun hcontra => absurd hcontra.1 hth⟩,
      ⟨fun hcontra => absurd hcontra (by omega), fun hcontra => absurd hcontra.1 hth⟩,
      fun _ => rfl⟩
    rcases hcontra with hcontra | hcontra <;> exact absurd hcontra (by omega)

/-- Witness for C6: a 50-pixel leftward drag on 120-pixel cards moves to
the next index. -/
theorem C6_drag_end_threshold_witness :
    (0 : ℚ) < 120 ∧
    (dragEndTarget 2 (-290) (-240) 120 = 2 + 1 ↔
      (120 : ℚ) / 3 < |(-290 : ℚ) - (-240)| ∧ (-290 : ℚ) - (-240) < 0) :=
  ⟨by norm_num, (C6_drag_end_threshold 2 (-290) (-240) 120 (by norm_num)).2.1⟩

/-- C8: in loop mode, for every integer argument the synchronous part of
`slideToIndex` sets `currentIndex` to the argument clamped into
`[0, maxIndex]` and establishes
`currentTranslate = prevTranslate = -(currentIndex * cardFullWidth)`; and
from any state satisfying that invariant, the deferred loop-reset keeps
`currentIndex` within `[0, maxIndex]` and re-establishes the same translate
equations — so the invariant holds after every slide operation. -/
theorem C8_slide_clamp_translate_invariant (N k : ℕ) (hk : k < N)
    (index : ℤ) (w : ℚ) (s s2 : SliderState) (h0 : 0 ≤ s2.currentIndex)
    (h1 : s2.currentIndex ≤ sliderMaxIndex N k) (h2 : translateInv s2 w) :
    (slideToIndexSync s index (sliderMaxIndex N k) w).currentIndex =
      clampIndex index (sliderMaxIndex N k) ∧
    0 ≤ (slideToIndexSync s index (sliderMaxIndex N k) w).currentIndex ∧
    (slideToIndexSync s index (sliderMaxIndex N k) w).currentIndex ≤
      sliderMaxIndex N k ∧
    translateInv (slideToIndexSync s index (sliderMaxIndex N k) w) w ∧
    0 ≤ (loopReset s2 k (sliderMaxIndex N k) w).currentIndex ∧
    (loopReset s2 k (sliderMaxIndex N k) w).currentIndex ≤ sliderMaxIndex N k ∧
    translateInv (loopReset s2 k (sliderMaxIndex N k) w) w := by
  have hm : sliderMaxIndex N k = (N : ℤ) + k := sliderMaxIndex_loop N k hk
  have hmnonneg : 0 ≤ sliderMaxIndex N k := by rw [hm]; positivity
  refine ⟨rfl, ?_, ?_, ⟨rfl, rfl⟩, ?_⟩
  · unfold slideToIndexSync clampIndex
    dsimp
    omega
  · unfold slideToIndexSync clampIndex
    dsimp
    omega
  · unfold loopReset
    split_ifs with ha hb
    · refine ⟨?_, ?_, rfl, rfl⟩ <;> dsimp <;> rw [hm] at h1 ⊢ <;> omega
    · refine ⟨?_, ?_, rfl, rfl⟩ <;> dsimp <;> rw [hm] at h1 ⊢ <;> omega
    · exact ⟨h0, h1, h2⟩

/-- Witness for C8 at the deployed loop parameters (3 real cards, one card
shown, 120-pixel cards), sliding to index 7 from a mid-carousel state. -/
theorem C8_slide_clamp_translate_invariant_witness :
    (1 : ℕ) < 3 ∧ (0 : ℤ) ≤ (SliderState.mk 2 (-240) (-240)).currentIndex ∧
    (SliderState.mk 2 (-240) (-240)).currentIndex ≤ sliderMaxIndex 3 1 ∧
    translateInv (SliderState.mk 2 (-240) (-240)) 120 ∧
    ((slideToIndexSync (SliderState.mk 0 0 0) 7 (sliderMaxIndex 3 1) 120).currentIndex =
        clampIndex 7 (sliderMaxIndex 3 1) ∧
      0 ≤ (slideToIndexSync (SliderState.mk 0 0 0) 7 (sliderMaxIndex 3 1) 120).currentIndex ∧
      (slideToIndexSync (SliderState.mk 0 0 0) 7 (sliderMaxIndex 3 1) 120).currentIndex ≤
        sliderMaxIndex 3 1 ∧
      translateInv (slideToIndexSync (SliderState.mk 0 0 0) 7 (sliderMaxIndex 3 1) 120) 120 ∧
      0 ≤ (loopReset (SliderState.mk 2 (-240) (-240)) 1 (sliderMaxIndex 3 1) 120).currentIndex ∧
      (loopReset (SliderState.mk 2 (-240) (-240)) 1 (sliderMaxIndex 3 1) 120).currentIndex ≤
        sliderMaxIndex 3 1 ∧
      translateInv (loopReset (SliderState.mk 2 (-240) (-240)) 1 (sliderMaxIndex 3 1) 120) 120) :=
  ⟨by norm_num, by decide, by decide, ⟨by norm_num, by norm_num⟩,
    C8_slide_clamp_translate_invariant 3 1 (by norm_num) 7 120
      (SliderState.mk 0 0 0) (SliderState.mk 2 (-240) (-240))
      (by decide) (by decide) ⟨by norm_num, by norm_num⟩⟩

/-- C10: in loop mode, for every `currentIndex` in `[0, maxIndex]` the real
index computed by `updateDots` after its single wrap-around adjustment lies
in `[0, totalRealCards)`, so exactly one of the `totalRealCards` dots ends
up with the `active` class. -/
theorem C10_update_dots_real_index_in_range (N k : ℕ) (hk : k < N) (i : ℤ)
    (h0 : 0 ≤ i) (h1 : i ≤ sliderMaxIndex N k) :
    0 ≤ updateDotsRealIndex i k N ∧ updateDotsRealIndex i k N < (N : ℤ) ∧
    ∃! j : Fin N, updateDotsActive i k N (j : ℕ) = true := by
  have hm : sliderMaxIndex N k = (N : ℤ) + k := sliderMaxIndex_loop N k hk
  rw [hm] at h1
  have hrange : 0 ≤ updateDotsRealIndex i k N ∧ updateDotsRealIndex i k N < (N : ℤ) := by
    unfold updateDotsRealIndex
    dsimp only
    split_ifs <;> constructor <;> omega
  refine ⟨hrange.1, hrange.2, ⟨(updateDotsRealIndex i k N).toNat, ?_⟩, ?_, ?_⟩
  · omega
  · show updateDotsActive i k N ((updateDotsRealIndex i k N).toNat) = true
    unfold updateDotsActive
    rw [decide_eq_true_iff]
    omega
  · intro j hj
    have hj2 : ((j : ℕ) : ℤ) = updateDotsRealIndex i k N := by
      have := of_decide_eq_true hj
      exact this
    apply Fin.ext
    dsimp
    omega

/-- Witness for C10 at the deployed loop parameters, at the top of the
index range. -/
theorem C10_update_dots_real_index_in_range_witness :
    (1 : ℕ) < 3 ∧ (0 : ℤ) ≤ 4 ∧ (4 : ℤ) ≤ sliderMaxIndex 3 1 ∧
    (0 ≤ updateDotsRealIndex 4 1 3 ∧ updateDotsRealIndex 4 1 3 < (3 : ℤ) ∧
      ∃! j : Fin 3, updateDotsActive 4 1 3 (j : ℕ) = true) :=
  ⟨by norm_num, by norm_num, by decide,
    C10_update_dots_real_index_in_range 3 1 (by norm_num) 4 (by norm_num) (by decide)⟩

/-- A string extending `"#"` on the right is non-empty (the id the handler
stores is truthy). -/
theorem hash_append_ne_empty (b : String) : ("#" ++ b) ≠ "" := by
  obtain ⟨l⟩ := b
  intro h
  have hd : ("#" ++ String.mk l).data = '#' :: l := rfl
  rw [h] at hd
  exact List.noConfusion hd

/-- When an href contains `index.html#`, `extractIdFromHref` returns `'#'`
prepended to the part after the first occurrence. -/
theorem extractId_of_contains (href : String)
    (h1 : strContains href "index.html#" = true) :
    ∃ b, extractIdFromHref href = some ("#" ++ b) := by
  have hsome := h1
  unfold strContains at hsome
  unfold extractIdFromHref
  rw [if_pos h1]
  rcases haf : afterFirst "index.html#".data href.data with _ | l
  · rw [haf] at hsome
    simp at hsome
  · refine ⟨String.mk (upToNext "index.html#".data l), ?_⟩
    unfold jsSplitSecond
    rw [haf]
    rfl

/-- C3: a click on a local anchor (`href` starts with `#`, is not exactly
`#`) prevents the default navigation; when an element matches the hash the
page is scrolled to that element's document position minus the configured
80-pixel offset and the hash is pushed onto the history afterwards, and
when no element matches, scroll position and history (and storage) are left
unchanged. -/
theorem C3_local_anchor_click (href path : String) (dom : String → Option ℚ)
    (st : Option String) (h1 : strStartsWith href "#" = true) (h2 : href ≠ "#") :
    (handleAnchorClick href path dom st).prevented = true ∧
    configOffset = 80 ∧
    (∀ pos, dom href = some pos →
      (handleAnchorClick href path dom st).scrolledTo = some (pos - configOffset) ∧
      (handleAnchorClick href path dom st).pushedHash = some href) ∧
    (dom href = none →
      (handleAnchorClick href path dom st).scrolledTo = none ∧
      (handleAnchorClick href path dom st).pushedHash = none ∧
      (handleAnchorClick href path dom st).storage = st) := by
  have hne : href ≠ "" := by
    intro he
    rw [he] at h1
    exact absurd h1 (by decide)
  have hget : getTargetElement href dom = dom href := by
    unfold getTargetElement
    rw [if_neg]
    push_neg
    exact ⟨hne, h2⟩
  unfold handleAnchorClick
  rw [if_neg hne, if_pos ⟨h1, h2⟩, hget]
  rcases hdom : dom href with _ | pos
  · refine ⟨rfl, rfl, ?_, fun _ => ⟨rfl, rfl, rfl⟩⟩
    intro pos hcontra
    exact absurd hcontra (by simp)
  · refine ⟨rfl, rfl, ?_, ?_⟩
    · intro pos1 hp
      injection hp with hp
      subst hp
      exact ⟨rfl, rfl⟩
    · intro hcontra
      exact absurd hcontra (by simp)

/-- Witness for C3: clicking `#contact` on a page where every selector
matches an element at document position 500. -/
theorem C3_local_anchor_click_witness :
    strStartsWith "#contact" "#" = true ∧ "#contact" ≠ "#" ∧
    ((handleAnchorClick "#contact" "" (fun _ => some 500) none).prevented = true ∧
      configOffset = 80 ∧
      (∀ pos, (fun _ : String => some (500 : ℚ)) "#contact" = some pos →
        (handleAnchorClick "#contact" "" (fun _ => some 500) none).scrolledTo =
          some (pos - configOffset) ∧
        (handleAnchorClick "#contact" "" (fun _ => some 500) none).pushedHash =
          some "#contact") ∧
      ((fun _ : String => some (500 : ℚ)) "#contact" = none →
        (handleAnchorClick "#contact" "" (fun _ => some 500) none).scrolledTo = none ∧
        (handleAnchorClick "#contact" "" (fun _ => some 500) none).pushedHash = none ∧
        (handleAnchorClick "#contact" "" (fun _ => some 500) none).storage = none)) :=
  ⟨by decide, by decide,
    C3_local_anchor_click "#contact" "" (fun _ => some 500) none (by decide) (by decide)⟩

/-- C2: clicking a link whose href contains `index.html#` (a cross-page
anchor, not itself a `#...` local anchor) while not on the home page does
not prevent the default navigation but stores the extracted id, prefixed
with `#`, in the sessionStorage key `scrollTarget`; on the next load
`checkStoredScrollTarget` removes the key unconditionally and scrolls only
if an element matching the stored id exists — the stored target is consumed
exactly once even when the element is missing. -/
theorem C2_cross_page_anchor_stored_once (href path t : String)
    (dom dom2 : String → Option ℚ) (st : Option String)
    (h1 : strContains href "index.html#" = true)
    (h2 : strStartsWith href "#" = false)
    (h3 : isHomePage path = false)
    (ht : t ≠ "") :
    (handleAnchorClick href path dom st).prevented = false ∧
    (handleAnchorClick href path dom st).storage = extractIdFromHref href ∧
    (∃ rest, extractIdFromHref href = some ("#" ++ rest)) ∧
    (checkStoredScrollTarget (some t) dom2).storage = none ∧
    (∀ pos, getTargetElement t dom2 = some pos →
      (checkStoredScrollTarget (some t) dom2).scrolledTo = some (pos - configOffset) ∧
      (checkStoredScrollTarget (some t) dom2).pushedHash = some t) ∧
    (getTargetElement t dom2 = none →
      (checkStoredScrollTarget (some t) dom2).scrolledTo = none ∧
      (checkStoredScrollTarget (some t) dom2).pushedHash = none) := by
  obtain ⟨rest, hex⟩ := extractId_of_contains href h1
  have hne : href ≠ "" := by
    intro he
    rw [he] at h1
    exact absurd h1 (by decide)
  have hnothash : ¬(strStartsWith href "#" = true ∧ href ≠ "#") := by
    intro hcontra
    rw [h2] at hcontra
    exact absurd hcontra.1 (by decide)
  have hnothome : ¬(isHomePage path = true) := by
    rw [h3]
    decide
  have hclick : handleAnchorClick href path dom st =
      { prevented := false, scrolledTo := none, pushedHash := none
        storage := some ("#" ++ rest) } := by
    unfold handleAnchorClick
    rw [if_neg hne, if_neg hnothash, if_pos h1, if_neg hnothome, hex]
    exact if_neg (hash_append_ne_empty rest)
  rw [hclick, hex]
  refine ⟨rfl, rfl, ⟨rest, rfl⟩, ?_, ?_, ?_⟩
  · simp only [checkStoredScrollTarget]
    rw [if_neg ht]
    rcases hg : getTargetElement t dom2 with _ | pos <;> rfl
  · intro pos hg
    simp only [checkStoredScrollTarget]
    rw [if_neg ht, hg]
    exact ⟨rfl, rfl⟩
  · intro hg
    simp only [checkStoredScrollTarget]
    rw [if_neg ht, hg]
    exact ⟨rfl, rfl⟩

/-- Witness for C2: clicking `./index.html#shop` from `shop.html` with
`#shop` later stored and no matching element on the next page. -/
theorem C2_cross_page_anchor_stored_once_witness :
    strContains "./index.html#shop" "index.html#" = true ∧
    strStartsWith "./index.html#shop" "#" = false ∧
    isHomePage "shop.html" = false ∧
    "#shop" ≠ "" ∧
    ((handleAnchorClick "./index.html#shop" "shop.html" (fun _ => none) none).prevented
        = false ∧
      (handleAnchorClick "./index.html#shop" "shop.html" (fun _ => none) none).storage
        = extractIdFromHref "./index.html#shop" ∧
      (∃ rest, extractIdFromHref "./index.html#shop" = some ("#" ++ rest)) ∧
      (checkStoredScrollTarget (some "#shop") (fun _ => none)).storage = none ∧
      (∀ pos, getTargetElement "#shop" (fun _ => none) = some pos →
        (checkStoredScrollTarget (some "#shop") (fun _ => none)).scrolledTo =
          some (pos - configOffset) ∧
        (checkStoredScrollTarget (some "#shop") (fun _ => none)).pushedHash =
          some "#shop") ∧
      (getTargetElement "#shop" (fun _ => none) = none →
        (checkStoredScrollTarget (some "#shop") (fun _ => none)).scrolledTo = none ∧
        (checkStoredScrollTarget (some "#shop") (fun _ => none)).pushedHash = none)) :=
  ⟨by decide, by decide, by decide, by decide,
    C2_cross_page_anchor_stored_once "./index.html#shop" "shop.html" "#shop"
      (fun _ => none) (fun _ => none) none (by decide) (by decide) (by decide)
      (by decide)⟩

/-- C4: refuted as stated — `handleAnchorClick` does write data that
outlives the current page.  Clicking `./index.html#shop` from `shop.html`
(not the home page) leaves `'#shop'` in the sessionStorage key
`scrollTarget`, which survives the navigation and is read by the next
page's load handler: the click handler's storage after the click differs
from the empty storage before it. -/
theorem C4_counterexample_storage_write :
    (handleAnchorClick "./index.html#shop" "shop.html" (fun _ => none) none).storage
      = some "#shop" ∧
    (handleAnchorClick "./index.html#shop" "shop.html" (fun _ => none) none).storage
      ≠ none := by
  constructor <;> decide

/-- C4 amended: the only cross-page write any handler performs is the
sessionStorage key `scrollTarget`: after any `handleAnchorClick` the
storage is either unchanged or exactly the id `extractIdFromHref` yields,
and the next page load's `checkStoredScrollTarget` always removes a stored
(truthy) value — so nothing written outlives the next page load; all other
mutable state lives in in-memory object fields and DOM classes/styles. -/
theorem C4_amended_only_scroll_target_key (href path t : String)
    (dom dom2 : String → Option ℚ) (st : Option String) (ht : t ≠ "") :
    ((handleAnchorClick href path dom st).storage = st ∨
      (handleAnchorClick href path dom st).storage = extractIdFromHref href) ∧
    (checkStoredScrollTarget (some t) dom2).storage = none := by
  constructor
  · unfold handleAnchorClick
    split_ifs with he hh hc hhome
    · exact Or.inl rfl
    · rcases hg : getTargetElement href dom with _ | pos <;> exact Or.inl rfl
    · rcases hex : extractIdFromHref href with _ | tid
      · exact Or.inl rfl
      · dsimp only
        rcases hg : getTargetElement tid dom with _ | pos <;> exact Or.inl rfl
    · rcases hex : extractIdFromHref href with _ | tid
      · exact Or.inl rfl
      · dsimp only
        by_cases htid : tid = ""
        · rw [if_pos htid]
          exact Or.inl rfl
        · rw [if_neg htid]
          exact Or.inr rfl
    · exact Or.inl rfl
  · simp only [checkStoredScrollTarget]
    rw [if_neg ht]
    rcases hg : getTargetElement t dom2 with _ | pos <;> rfl

/-- Witness for C4's amended claim at concrete inputs. -/
theorem C4_amended_only_scroll_target_key_witness :
    "#shop" ≠ "" ∧
    (((handleAnchorClick "./index.html#shop" "shop.html" (fun _ => none) none).storage
          = none ∨
        (handleAnchorClick "./index.html#shop" "shop.html" (fun _ => none) none).storage
          = extractIdFromHref "./index.html#shop") ∧
      (checkStoredScrollTarget (some "#shop") (fun _ => none)).storage = none) :=
  ⟨by decide,
    C4_amended_only_scroll_target_key "./index.html#shop" "shop.html" "#shop"
      (fun _ => none) (fun _ => none) none (by decide)⟩

/-- C7: missing DOM elements are handled only by null checks that abort the
operation: with the dropdown button or menu absent no dropdown listeners
are attached; with the slider container absent the `CardSlider` constructor
returns without initializing; and when no element matches any hash (the
target is not found, or the hash is an invalid selector — both make the
modelled query return `none`) the anchor click handler changes neither the
scroll position nor the history. -/
theorem C7_missing_elements_abort (itemCount : ℕ)
    (btn menu container : Option Unit) (href path : String)
    (st : Option String) (dom : String → Option ℚ)
    (hbm : btn = none ∨ menu = none) (hc : container = none)
    (hdom : ∀ hash, dom hash = none) :
    dropdownSetupListeners btn menu itemCount = [] ∧
    cardSliderConstruct container = none ∧
    (handleAnchorClick href path dom st).scrolledTo = none ∧
    (handleAnchorClick href path dom st).pushedHash = none := by
  have hget : ∀ hash, getTargetElement hash dom = none := by
    intro hash
    unfold getTargetElement
    split_ifs with h
    · rfl
    · exact hdom hash
  have heff : ∃ b os, handleAnchorClick href path dom st =
      { prevented := b, scrolledTo := none, pushedHash := none, storage := os } := by
    unfold handleAnchorClick
    split_ifs with he hh hc2 hhome
    · exact ⟨_, _, rfl⟩
    · rw [hget href]
      exact ⟨_, _, rfl⟩
    · rcases hex : extractIdFromHref href with _ | tid
      · exact ⟨_, _, rfl⟩
      · dsimp only
        rw [hget tid]
        exact ⟨_, _, rfl⟩
    · rcases hex : extractIdFromHref href with _ | tid
      · exact ⟨_, _, rfl⟩
      · dsimp only
        by_cases htid : tid = ""
        · rw [if_pos htid]
          exact ⟨_, _, rfl⟩
        · rw [if_neg htid]
          exact ⟨_, _, rfl⟩
    · exact ⟨_, _, rfl⟩
  obtain ⟨b, os, heq⟩ := heff
  refine ⟨?_, ?_, ?_, ?_⟩
  · rcases hbm with h | h <;> subst h
    · cases menu <;> rfl
    · cases btn <;> rfl
  · rw [hc]
    rfl
  · rw [heq]
  · rw [heq]

/-- Witness for C7: no button, no menu, no container, a DOM with no
elements and a local-anchor click on `#missing`. -/
theorem C7_missing_elements_abort_witness :
    ((none : Option Unit) = none ∨ (none : Option Unit) = none) ∧
    (none : Option Unit) = none ∧
    (∀ hash, (fun _ : String => (none : Option ℚ)) hash = none) ∧
    (dropdownSetupListeners none none 0 = [] ∧
      cardSliderConstruct none = none ∧
      (handleAnchorClick "#missing" "index.html" (fun _ => none) none).scrolledTo
        = none ∧
      (handleAnchorClick "#missing" "index.html" (fun _ => none) none).pushedHash
        = none) :=
  ⟨Or.inl rfl, rfl, fun _ => rfl,
    C7_missing_elements_abort 0 none none none "#missing" "index.html" none
      (fun _ => none) (Or.inl rfl) rfl (fun _ => rfl)⟩
